import Mathlib

/-!
Verification of the bite-prediction core of the boltfishing repository
(src/src/App.jsx). The scorer (`predictFishBite`) and the two weather
resolvers (`fetchWeatherData`, `fetchWeatherByCoords`) together with the
geolocation handler (`handleGeolocate`) are embedded shallowly: React
state becomes an explicit `AppState` record, asynchronous provider calls
become an explicit `FetchResult` argument, and JavaScript numbers become
rationals (`Rat`) with the running score as `Int`.
-/

/-- The chars of `l` start with the chars of `needle` (elementwise equality
on a prefix). Models the anchored comparison underlying JavaScript
`String.prototype.includes`. -/
def charsStartWith : List Char → List Char → Bool
  | [], _ => true
  | _ :: _, [] => false
  | a :: as, b :: bs => a == b && charsStartWith as bs

/-- The chars `needle` occur contiguously inside the second list. -/
def charsContain (needle : List Char) : List Char → Bool
  | [] => needle.isEmpty
  | c :: cs => charsStartWith needle (c :: cs) || charsContain needle cs

/-- JavaScript `hay.includes(needle)`: substring containment. -/
def strIncludes (hay needle : String) : Bool :=
  charsContain needle.toList hay.toList

/-- Accumulator loop for a decimal-digit run: consumes chars while they are
digits, as JavaScript `parseInt` does after its first character. -/
def parseDigitsAcc : List Char → Nat → Nat
  | [], acc => acc
  | c :: cs, acc =>
    if c.isDigit then parseDigitsAcc cs (acc * 10 + (c.toNat - 48)) else acc

/-- JavaScript `parseInt(s)` restricted to the inputs the app produces
(a time field hour component): a leading run of decimal digits parses to
its value; a string not starting with a digit gives `none` (NaN), and NaN
fails every numeric comparison in the scorer. -/
def jsParseInt (s : String) : Option Nat :=
  match s.toList with
  | [] => none
  | c :: cs => if c.isDigit then some (parseDigitsAcc cs (c.toNat - 48)) else none

/-- JavaScript `Math.round(q)`: floor of `q + 1/2` (ties toward positive
infinity), computed on the numerator and denominator as the flooring
integer division (2 num + den) fdiv (2 den). -/
def jsRound (q : Rat) : Int :=
  Int.fdiv (2 * q.num + q.den) (2 * q.den)

/-- ASCII lowercasing of one char, the fragment of JavaScript
`toLowerCase` exercised by provider category strings. -/
def lowerChar (c : Char) : Char :=
  if 65 ≤ c.toNat ∧ c.toNat ≤ 90 then Char.ofNat (c.toNat + 32) else c

/-- JavaScript `s.toLowerCase()` on ASCII strings. -/
def strToLower (s : String) : String :=
  ⟨s.data.map lowerChar⟩

/-- JavaScript `s.split(sep)[0]`: the chars before the first separator. -/
def jsSplitHead (s : String) (sep : Char) : String :=
  ⟨s.data.takeWhile (fun c => c != sep)⟩

/-- The weather snapshot the app stores (`weatherData`): the fields of the
provider response that the code reads — `name`, `main.temp`,
`weather[0].main`, `weather[0].description`, `wind.speed`. -/
structure WeatherObservation where
  name : String
  temp : Rat
  weatherMain : String
  weatherDescription : String
  windSpeed : Rat
deriving DecidableEq

/-- The `formData` React state: location text, water temperature, time of
day (as the raw `HH:MM` string of the time input), moon phase (the value
string of the select: full, half or new). -/
structure FormData where
  location : String
  waterTemperature : Rat
  timeOfDay : String
  moonPhase : String
deriving DecidableEq

/-- The component state relevant to the core: `formData`, `weatherData`,
`prediction`, the `loading` and `geoLoading` busy-flags and the `error`
message. -/
structure AppState where
  formData : FormData
  weatherData : Option WeatherObservation
  prediction : Option Int
  loading : Bool
  error : Option String
  geoLoading : Bool
deriving DecidableEq

/-- Water temperature adjustment of `predictFishBite`:
`if (waterTemperature >= 18 && waterTemperature <= 24) score += 20`. -/
def tempImpact (t : Rat) : Int :=
  if 18 ≤ t ∧ t ≤ 24 then 20 else 0

/-- Time-of-day adjustment of `predictFishBite`: parse the hour with
`parseInt(timeOfDay.split(':')[0])`, then two independent conditionals
`hour >= 6 && hour <= 10` and `hour >= 16 && hour <= 19`, each adding 15.
A NaN hour fails both comparisons. -/
def timeImpact (timeOfDay : String) : Int :=
  match jsParseInt (jsSplitHead timeOfDay ':') with
  | none => 0
  | some h =>
    (if 6 ≤ h ∧ h ≤ 10 then 15 else 0) + (if 16 ≤ h ∧ h ≤ 19 then 15 else 0)

/-- Weather-condition adjustment of `predictFishBite`: the
`switch(true)` block over `weather[0].main.toLowerCase()`, checking
`includes('clear')`, then `includes('clouds')`, then `includes('rain')`,
first match winning. -/
def weatherImpact (mainWeather : String) : Int :=
  let mw := strToLower mainWeather
  if strIncludes mw "clear" then 10
  else if strIncludes mw "clouds" then 5
  else if strIncludes mw "rain" then -10
  else 0

/-- Wind adjustment of `predictFishBite`:
`if (wind.speed < 5) score += 10; else if (wind.speed > 10) score -= 10`. -/
def windImpact (w : Rat) : Int :=
  if w < 5 then 10 else if w > 10 then -10 else 0

/-- Moon-phase adjustment of `predictFishBite`: the `switch(moonPhase)`
with cases full (+10) and new (-5) and no default. -/
def moonImpact (m : String) : Int :=
  if m = "full" then 10 else if m = "new" then -5 else 0

/-- The running total of `predictFishBite` before the clamp: base 50 plus
the five adjustments, applied additively in source order. -/
def rawScore (fd : FormData) (obs : WeatherObservation) : Int :=
  50 + tempImpact fd.waterTemperature + timeImpact fd.timeOfDay
    + weatherImpact obs.weatherMain + windImpact obs.windSpeed
    + moonImpact fd.moonPhase

/-- The final score of `predictFishBite`:
`score = Math.max(0, Math.min(100, score))`. -/
def predictScore (fd : FormData) (obs : WeatherObservation) : Int :=
  max 0 (min 100 (rawScore fd obs))

/-- The `predictFishBite` handler as a state transition: with no
observation it sets the error message and returns without touching the
prediction; otherwise it stores the computed score as the prediction. -/
def predictFishBite (s : AppState) : AppState :=
  match s.weatherData with
  | none => { s with error := some "Please fetch weather data first" }
  | some obs => { s with prediction := some (predictScore s.formData obs) }

/-- The qualitative tier rendered from a prediction score: the three
mutually exclusive conditionals `prediction > 70`,
`prediction > 40 && prediction <= 70` and `prediction <= 40`. -/
def tier (p : Int) : String :=
  if 70 < p then "excellent" else if 40 < p then "moderate" else "poor"

/-- Outcome of one provider HTTP call, passed explicitly in place of the
awaited axios response: `ok` carries `response.data`, `fail` is the catch
path. -/
inductive FetchResult where
  | ok (data : WeatherObservation)
  | fail
deriving DecidableEq

/-- The `fetchWeatherData` handler (resolve by name) as a state
transition. Returns the next state and whether an outbound request was
issued. Empty location: set the error and return before any call. Then
`loading := true`, `error := null`; on success store the observation and
overwrite `waterTemperature` with the rounded fetched temperature; on
failure set the provider error message and reset `weatherData` to null;
the finally block clears `loading` on both paths. -/
def fetchWeatherData (s : AppState) (result : FetchResult) : AppState × Bool :=
  if s.formData.location = "" then
    ({ s with error := some "Please enter a location" }, false)
  else
    let s1 : AppState := { s with loading := true, error := none }
    match result with
    | FetchResult.ok data =>
      ({ s1 with
          weatherData := some data,
          formData := { s1.formData with waterTemperature := (jsRound data.temp : Rat) },
          loading := false }, true)
    | FetchResult.fail =>
      ({ s1 with
          error := some "Could not fetch weather data. Please check the location.",
          weatherData := none,
          loading := false }, true)

/-- The `fetchWeatherByCoords` handler (resolve by coordinates) as a
state transition: `loading := true`, `error := null`; on success store the
observation and overwrite both `location` (with the resolved name) and
`waterTemperature` (rounded temperature); on failure set the error message
and reset `weatherData` to null; the finally block clears both `loading`
and `geoLoading` on both paths. -/
def fetchWeatherByCoords (s : AppState) (lat lon : Rat) (result : FetchResult) : AppState :=
  let s1 : AppState := { s with loading := true, error := none }
  match result with
  | FetchResult.ok data =>
    { s1 with
        weatherData := some data,
        formData := { s1.formData with
            location := data.name,
            waterTemperature := (jsRound data.temp : Rat) },
        loading := false,
        geoLoading := false }
  | FetchResult.fail =>
    { s1 with
        error := some "Could not fetch weather data for your location.",
        weatherData := none,
        loading := false,
        geoLoading := false }

/-- The native geolocation error categories distinguished by
`handleGeolocate`'s switch on `error.code`. -/
inductive GeoError where
  | permissionDenied
  | positionUnavailable
  | timeout
  | unknown
deriving DecidableEq

/-- The message `handleGeolocate` surfaces for each geolocation error
code. -/
def geoErrorMessage : GeoError → String
  | GeoError.permissionDenied => "User denied the request for Geolocation."
  | GeoError.positionUnavailable => "Location information is unavailable."
  | GeoError.timeout => "The request to get user location timed out."
  | GeoError.unknown => "An unknown error occurred."

/-- Outcome of `getCurrentPosition`: a position (whose success callback
runs `fetchWeatherByCoords`, so the provider result rides along) or a
failure code. -/
inductive GeoOutcome where
  | position (lat lon : Rat) (result : FetchResult)
  | failure (e : GeoError)
deriving DecidableEq

/-- The `handleGeolocate` handler as a state transition. Without platform
geolocation support it only sets an error. Otherwise `geoLoading := true`,
`error := null`, then either the success callback delegates to
`fetchWeatherByCoords`, or the error callback clears `geoLoading` and sets
the message for the error code. -/
def handleGeolocate (s : AppState) (supported : Bool) (outcome : GeoOutcome) : AppState :=
  if !supported then
    { s with error := some "Geolocation is not supported by your browser" }
  else
    let s1 : AppState := { s with geoLoading := true, error := none }
    match outcome with
    | GeoOutcome.position lat lon result => fetchWeatherByCoords s1 lat lon result
    | GeoOutcome.failure e =>
      { s1 with geoLoading := false, error := some (geoErrorMessage e) }

/-- Scenario A form data: water temperature 20, time 08:00, full moon. -/
def fdA : FormData :=
  { location := "Bergen", waterTemperature := 20, timeOfDay := "08:00", moonPhase := "full" }

/-- Scenario A observation: condition Clear, wind 3 m/s. -/
def obsA : WeatherObservation :=
  { name := "Bergen", temp := 19, weatherMain := "Clear",
    weatherDescription := "clear sky", windSpeed := 3 }

/-- A concrete state with a nonempty location and no observation. -/
def st0 : AppState :=
  { formData := fdA, weatherData := none, prediction := none,
    loading := false, error := none, geoLoading := false }

/-- An observation whose temperature (25.3 °C) rounds to 25, differing
from `st0`'s stored water temperature of 20. -/
def obsHot : WeatherObservation :=
  { name := "Oslo", temp := mkRat 253 10, weatherMain := "Clouds",
    weatherDescription := "scattered clouds", windSpeed := 7 }

/-- A concrete state whose location field is the empty string. -/
def stEmptyLoc : AppState :=
  { st0 with formData := { fdA with location := "" } }

/-- Claim C1: for every PredictionInput and WeatherObservation the score is
an integer in [0,100]; the final step clamps the running total with
max(0, min(100, total)). -/
theorem predictScore_bounds (fd : FormData) (obs : WeatherObservation) :
    predictScore fd obs = max 0 (min 100 (rawScore fd obs)) ∧
    0 ≤ predictScore fd obs ∧ predictScore fd obs ≤ 100 := by
  refine ⟨rfl, ?_, ?_⟩ <;> unfold predictScore <;> omega

/-- Claim C2: with no observation present, the scorer sets the
missing-observation error and does not update the stored prediction. -/
theorem predict_missing_observation (s : AppState) (h : s.weatherData = none) :
    (predictFishBite s).prediction = s.prediction ∧
    (predictFishBite s).error = some "Please fetch weather data first" := by
  unfold predictFishBite
  rw [h]
  exact ⟨rfl, rfl⟩

/-- Witness for C2 at the concrete state `st0`, whose `weatherData` is
`none`. -/
theorem predict_missing_observation_witness :
    (predictFishBite st0).prediction = st0.prediction ∧
    (predictFishBite st0).error = some "Please fetch weather data first" :=
  predict_missing_observation st0 rfl

/-- The contribution of the weather condition to the running total:
changing only `weatherMain` changes `rawScore` by exactly
`weatherImpact`. -/
lemma rawScore_weather_decomp (fd : FormData) (obs : WeatherObservation) (c : String) :
    rawScore fd { obs with weatherMain := c }
      = rawScore fd { obs with weatherMain := "" } + weatherImpact c := by
  have h0 : weatherImpact "" = 0 := by decide
  simp only [rawScore, h0]
  ring

/-- Claim C4: the weather adjustment is decided by case-insensitive
substring match with first-match priority clear, then clouds, then rain,
giving +10, +5, -10 and otherwise 0; and this adjustment is exactly what
the scorer adds to its running total. -/
theorem weatherImpact_priority (c : String) :
    (strIncludes (strToLower c) "clear" = true → weatherImpact c = 10) ∧
    (strIncludes (strToLower c) "clear" = false →
      strIncludes (strToLower c) "clouds" = true → weatherImpact c = 5) ∧
    (strIncludes (strToLower c) "clear" = false →
      strIncludes (strToLower c) "clouds" = false →
      strIncludes (strToLower c) "rain" = true → weatherImpact c = -10) ∧
    (strIncludes (strToLower c) "clear" = false →
      strIncludes (strToLower c) "clouds" = false →
      strIncludes (strToLower c) "rain" = false → weatherImpact c = 0) ∧
    (∀ (fd : FormData) (obs : WeatherObservation),
      rawScore fd { obs with weatherMain := c }
        = rawScore fd { obs with weatherMain := "" } + weatherImpact c) := by
  refine ⟨fun h1 => ?_, fun h1 h2 => ?_, fun h1 h2 h3 => ?_, fun h1 h2 h3 => ?_,
    fun fd obs => rawScore_weather_decomp fd obs c⟩
  · simp [weatherImpact, h1]
  · simp [weatherImpact, h1, h2]
  · simp [weatherImpact, h1, h2, h3]
  · simp [weatherImpact, h1, h2, h3]

/-- Witness for C4: a condition string containing both clear and rain gets
+10 (first match wins). -/
theorem weatherImpact_priority_witness : weatherImpact "Clear Rain" = 10 :=
  (weatherImpact_priority "Clear Rain").1 (by decide)

/-- Claim C5: for non-negative wind speed, the wind adjustment is +10 below
5 m/s, -10 above 10 m/s, and 0 in between; in particular exactly 5 and
exactly 10 give no change. -/
theorem windImpact_bands (w : Rat) (h : 0 ≤ w) :
    (w < 5 → windImpact w = 10) ∧
    (10 < w → windImpact w = -10) ∧
    (5 ≤ w → w ≤ 10 → windImpact w = 0) := by
  unfold windImpact
  refine ⟨fun h1 => ?_, fun h1 => ?_, fun h1 h2 => ?_⟩
  · rw [if_pos h1]
  · rw [if_neg (by linarith), if_pos h1]
  · rw [if_neg (by linarith), if_neg (by linarith)]

/-- Witness for C5 at wind speeds exactly 5 and exactly 10: both fall in
the no-change band. -/
theorem windImpact_bands_witness : windImpact 5 = 0 ∧ windImpact 10 = 0 :=
  ⟨(windImpact_bands 5 (by norm_num)).2.2 (by norm_num) (by norm_num),
   (windImpact_bands 10 (by norm_num)).2.2 (by norm_num) (by norm_num)⟩

/-- Claim C6: for scores in [0,100] the tier is excellent iff score > 70,
moderate iff 40 < score ≤ 70, and poor iff score ≤ 40. -/
theorem tier_thresholds (s : Int) (h0 : 0 ≤ s) (h1 : s ≤ 100) :
    (tier s = "excellent" ↔ 70 < s) ∧
    (tier s = "moderate" ↔ 40 < s ∧ s ≤ 70) ∧
    (tier s = "poor" ↔ s ≤ 40) := by
  unfold tier
  split_ifs with hA hB
  · exact ⟨⟨fun _ => hA, fun _ => rfl⟩,
      ⟨fun h => absurd h (by decide), fun h => absurd h.2 (by omega)⟩,
      ⟨fun h => absurd h (by decide), fun h => absurd h (by omega)⟩⟩
  · exact ⟨⟨fun h => absurd h (by decide), fun h => absurd h (by omega)⟩,
      ⟨fun _ => ⟨hB, by omega⟩, fun _ => rfl⟩,
      ⟨fun h => absurd h (by decide), fun h => absurd h (by omega)⟩⟩
  · exact ⟨⟨fun h => absurd h (by decide), fun h => absurd h (by omega)⟩,
      ⟨fun h => absurd h (by decide), fun h => absurd h.1 (by omega)⟩,
      ⟨fun _ => by omega, fun _ => rfl⟩⟩

/-- Witness for C6 at the boundary scores 70, 71, 40 and 41. -/
theorem tier_thresholds_witness :
    tier 70 = "moderate" ∧ tier 71 = "excellent" ∧
    tier 40 = "poor" ∧ tier 41 = "moderate" :=
  ⟨(tier_thresholds 70 (by decide) (by decide)).2.1.mpr (by decide),
   (tier_thresholds 71 (by decide) (by decide)).1.mpr (by decide),
   (tier_thresholds 40 (by decide) (by decide)).2.2.mpr (by decide),
   (tier_thresholds 41 (by decide) (by decide)).2.1.mpr (by decide)⟩

/-- Claim C7 (Scenario A): water temperature 20, time 08:00, full moon,
condition Clear, wind 3 gives running total 115, clamped to 100, tier
excellent. -/
theorem scenarioA_score :
    rawScore fdA obsA = 115 ∧ predictScore fdA obsA = 100 ∧
    tier (predictScore fdA obsA) = "excellent" := by decide

/-- Counterexample to claim C3 as stated: after a successful resolution by
name, the water-temperature field of the PredictionInput is not the value
held before the call — the resolver overwrites it with the rounded fetched
temperature (20 before, 25 after). -/
theorem resolver_overwrites_waterTemperature :
    (fetchWeatherData st0 (FetchResult.ok obsHot)).1.formData.waterTemperature
      ≠ st0.formData.waterTemperature := by decide

/-- Claim C3 amended: a successful resolution leaves the time-of-day and
moon-phase fields and the stored prediction unchanged, and stores the
observation as a value; but it overwrites the water-temperature field with
the rounded observed temperature, and resolution by coordinates also
overwrites the location with the resolved name. -/
theorem resolver_frame_amended (s : AppState) (obs : WeatherObservation) (lat lon : Rat)
    (h : s.formData.location ≠ "") :
    (fetchWeatherData s (FetchResult.ok obs)).1.formData.timeOfDay = s.formData.timeOfDay ∧
    (fetchWeatherData s (FetchResult.ok obs)).1.formData.moonPhase = s.formData.moonPhase ∧
    (fetchWeatherData s (FetchResult.ok obs)).1.formData.location = s.formData.location ∧
    (fetchWeatherData s (FetchResult.ok obs)).1.formData.waterTemperature
      = (jsRound obs.temp : Rat) ∧
    (fetchWeatherData s (FetchResult.ok obs)).1.weatherData = some obs ∧
    (fetchWeatherData s (FetchResult.ok obs)).1.prediction = s.prediction ∧
    (fetchWeatherByCoords s lat lon (FetchResult.ok obs)).formData.timeOfDay
      = s.formData.timeOfDay ∧
    (fetchWeatherByCoords s lat lon (FetchResult.ok obs)).formData.moonPhase
      = s.formData.moonPhase ∧
    (fetchWeatherByCoords s lat lon (FetchResult.ok obs)).formData.location = obs.name ∧
    (fetchWeatherByCoords s lat lon (FetchResult.ok obs)).formData.waterTemperature
      = (jsRound obs.temp : Rat) ∧
    (fetchWeatherByCoords s lat lon (FetchResult.ok obs)).weatherData = some obs ∧
    (fetchWeatherByCoords s lat lon (FetchResult.ok obs)).prediction = s.prediction := by
  unfold fetchWeatherData fetchWeatherByCoords
  rw [if_neg h]
  exact ⟨rfl, rfl, rfl, rfl, rfl, rfl, rfl, rfl, rfl, rfl, rfl, rfl⟩

/-- Witness for amended C3 at a concrete state and observation. -/
theorem resolver_frame_amended_witness :
    (fetchWeatherData st0 (FetchResult.ok obsHot)).1.formData.timeOfDay
      = st0.formData.timeOfDay :=
  (resolver_frame_amended st0 obsHot 0 0 (by decide)).1

/-- Claim C8: with an empty location, resolve-by-name issues no outbound
request, surfaces the InvalidInput message, and leaves the observation,
the form data, the prediction and the loading flag untouched. -/
theorem resolveByName_empty_location (s : AppState) (result : FetchResult)
    (h : s.formData.location = "") :
    (fetchWeatherData s result).2 = false ∧
    (fetchWeatherData s result).1.error = some "Please enter a location" ∧
    (fetchWeatherData s result).1.weatherData = s.weatherData ∧
    (fetchWeatherData s result).1.formData = s.formData ∧
    (fetchWeatherData s result).1.prediction = s.prediction ∧
    (fetchWeatherData s result).1.loading = s.loading := by
  unfold fetchWeatherData
  rw [if_pos h]
  exact ⟨rfl, rfl, rfl, rfl, rfl, rfl⟩

/-- Witness for C8 at a concrete empty-location state. -/
theorem resolveByName_empty_location_witness :
    (fetchWeatherData stEmptyLoc FetchResult.fail).2 = false :=
  (resolveByName_empty_location stEmptyLoc FetchResult.fail rfl).1

/-- Claim C9: every completion of a weather fetch or geolocation clears
its busy-flag, whatever the outcome — both fetch results, the geolocation
success path, and each of the four geolocation failure codes, which all
surface their message; in particular the permission-denied code surfaces
"User denied the request for Geolocation." and clears the geolocating
flag. -/
theorem busy_flags_cleared (s : AppState) (result : FetchResult) (lat lon : Rat)
    (e : GeoError) (h : s.formData.location ≠ "") :
    (fetchWeatherData s result).1.loading = false ∧
    (fetchWeatherByCoords s lat lon result).loading = false ∧
    (fetchWeatherByCoords s lat lon result).geoLoading = false ∧
    (handleGeolocate s true (GeoOutcome.position lat lon result)).geoLoading = false ∧
    (handleGeolocate s true (GeoOutcome.position lat lon result)).loading = false ∧
    (handleGeolocate s true (GeoOutcome.failure e)).geoLoading = false ∧
    (handleGeolocate s true (GeoOutcome.failure e)).error = some (geoErrorMessage e) ∧
    (handleGeolocate s true (GeoOutcome.failure GeoError.permissionDenied)).geoLoading
      = false ∧
    (handleGeolocate s true (GeoOutcome.failure GeoError.permissionDenied)).error
      = some "User denied the request for Geolocation." := by
  cases result <;> cases e <;>
    simp [fetchWeatherData, fetchWeatherByCoords, handleGeolocate, geoErrorMessage, h]

/-- Witness for C9 at a concrete state, a failed fetch and a timeout
geolocation failure. -/
theorem busy_flags_cleared_witness :
    (fetchWeatherData st0 FetchResult.fail).1.loading = false ∧
    (handleGeolocate st0 true (GeoOutcome.failure GeoError.timeout)).geoLoading = false :=
  ⟨(busy_flags_cleared st0 FetchResult.fail 0 0 GeoError.timeout (by decide)).1,
   (busy_flags_cleared st0 FetchResult.fail 0 0 GeoError.timeout (by decide)).2.2.2.2.2.1⟩

/-- Claim C10: a provider failure in either resolver resets the stored
observation to none, and a scoring attempt on the resulting state fails
with the missing-observation message without updating the prediction. -/
theorem provider_failure_resets_observation (s : AppState) (lat lon : Rat)
    (h : s.formData.location ≠ "") :
    (fetchWeatherData s FetchResult.fail).1.weatherData = none ∧
    (fetchWeatherByCoords s lat lon FetchResult.fail).weatherData = none ∧
    (predictFishBite (fetchWeatherData s FetchResult.fail).1).prediction
      = (fetchWeatherData s FetchResult.fail).1.prediction ∧
    (predictFishBite (fetchWeatherData s FetchResult.fail).1).error
      = some "Please fetch weather data first" ∧
    (predictFishBite (fetchWeatherByCoords s lat lon FetchResult.fail)).prediction
      = (fetchWeatherByCoords s lat lon FetchResult.fail).prediction ∧
    (predictFishBite (fetchWeatherByCoords s lat lon FetchResult.fail)).error
      = some "Please fetch weather data first" := by
  simp [fetchWeatherData, fetchWeatherByCoords, predictFishBite, h]

/-- Witness for C10 at a concrete state. -/
theorem provider_failure_resets_observation_witness :
    (fetchWeatherData st0 FetchResult.fail).1.weatherData = none :=
  (provider_failure_resets_observation st0 0 0 (by decide)).1
